import Mathlib

/-!
# Verification of the Meta Pages gateway core (src/server.py)

Shallow embedding of the token-resolution and request-dispatch core of the
server: credential resolvers (`_user_token`, `_app_token`, `_page_token`,
`_exchange_page_token`), the Graph HTTP helpers (`_graph_get`, `_graph_post`,
`_graph_delete`) and the exposed operations the specification's claims are
about.

Modelling conventions:
* Python values flowing through the gateway are modelled by the `Json`
  inductive (JSON numbers are modelled as integers; no claim involves
  floating point).
* A Python exception escaping a function is modelled by `Except.error`
  carrying a `PyErr`; a normal return is `Except.ok`.  The exposed
  operations therefore have result type `Except PyErr Json`: `.error`
  means an exception escaped the operation to the hosting transport layer.
* Every outbound HTTP call is recorded as a `Request`; an operation returns
  its result together with the list of requests it issued, and the
  response to each call is supplied by the caller of the model (the
  network oracle), one `HttpResult` per potential call site.
* `json.loads` applied to caller-supplied blobs in the escape-hatch
  operation is modelled by an oracle function `String → Option Json`
  (`none` = `json.JSONDecodeError`).
* Environment variables are read into an `Env` record; the page-token map
  (`META_PAGE_TOKENS`) is modelled already parsed, as a string-to-string
  association list.
* The final `_fmt` (an `indent=2` `json.dumps`) applied by every tool is a
  pure rendering of the returned document; the model returns the document
  itself.
* Messages produced by library code rather than by `server.py` (the
  `httpx.HTTPStatusError` text, `json.JSONDecodeError` text,
  `AttributeError` text) are modelled by fixed rendering functions; no
  claim depends on their exact wording.
-/

namespace MetaPages

/-- JSON values (Python dicts modelled as ordered association lists). -/
inductive Json where
  | null
  | bool (b : Bool)
  | num (n : Int)
  | str (s : String)
  | arr (elems : List Json)
  | obj (fields : List (String × Json))

mutual

/-- Structural boolean equality on JSON values (Python `==` on decoded
JSON data, as used by the `in` membership test on decoded lists). -/
def beqJson : Json → Json → Bool
  | .null, .null => true
  | .bool a, .bool b => a == b
  | .num a, .num b => a == b
  | .str a, .str b => a == b
  | .arr a, .arr b => beqJsonList a b
  | .obj a, .obj b => beqJsonObj a b
  | _, _ => false

def beqJsonList : List Json → List Json → Bool
  | [], [] => true
  | x :: xs, y :: ys => beqJson x y && beqJsonList xs ys
  | _, _ => false

def beqJsonObj : List (String × Json) → List (String × Json) → Bool
  | [], [] => true
  | kv :: xs, kw :: ys => kv.1 == kw.1 && beqJson kv.2 kw.2 && beqJsonObj xs ys
  | _, _ => false

end

/-- First-match association-list lookup (Python `dict` access on the parsed maps). -/
def lookupJ (kvs : List (String × Json)) (k : String) : Option Json :=
  (kvs.find? (fun kv => kv.1 == k)).map (fun kv => kv.2)

/-- Lookup in the string-to-string page-token map (`dict.get`). -/
def lookupStr (m : List (String × String)) (k : String) : Option String :=
  (m.find? (fun kv => kv.1 == k)).map (fun kv => kv.2)

/-- Python `dict` assignment `d[k] = v`: replace the value at the first
occurrence of `k` keeping its position, append when absent. -/
def setParam : List (String × Json) → String → Json → List (String × Json)
  | [], k, v => [(k, v)]
  | (k0, v0) :: rest, k, v =>
    if k0 = k then (k, v) :: rest else (k0, v0) :: setParam rest k v

/-- Python truthiness of a JSON value (`if x:`). -/
def pyTruthy : Json → Bool
  | .null => false
  | .bool b => b
  | .num n => n != 0
  | .str s => s != ""
  | .arr xs => !xs.isEmpty
  | .obj kvs => !kvs.isEmpty

/-- Python truthiness of an `Optional[str]` argument (`None` and `""` are falsy). -/
def truthyOpt : Option String → Bool
  | none => false
  | some s => s != ""

/-- Python `str.upper()` (ASCII; the status and method strings the claims
quantify over are ASCII). -/
def pyUpper (s : String) : String := String.mk (s.data.map Char.toUpper)

/-- Escaping inside `json.dumps` string output (claims only exercise
backslash and double-quote escapes). -/
def jsonEscape (s : String) : String :=
  s.foldl (fun acc c =>
    if c = Char.ofNat 34 then acc ++ "\\" ++ "\""
    else if c = Char.ofNat 92 then acc ++ "\\" ++ "\\"
    else acc ++ String.singleton c) ""

mutual

/-- Python `json.dumps` with its default separators (used for the
`filtering` parameter). -/
def dumps : Json → String
  | .null => "null"
  | .bool true => "true"
  | .bool false => "false"
  | .num n => toString n
  | .str s => "\"" ++ jsonEscape s ++ "\""
  | .arr xs => "[" ++ dumpsList xs ++ "]"
  | .obj kvs => "\x7b" ++ dumpsObj kvs ++ "\x7d"

def dumpsList : List Json → String
  | [] => ""
  | [x] => dumps x
  | x :: y :: xs => dumps x ++ ", " ++ dumpsList (y :: xs)

def dumpsObj : List (String × Json) → String
  | [] => ""
  | [kv] => "\"" ++ jsonEscape kv.1 ++ "\": " ++ dumps kv.2
  | kv :: kv2 :: kvs =>
    "\"" ++ jsonEscape kv.1 ++ "\": " ++ dumps kv.2 ++ ", " ++ dumpsObj (kv2 :: kvs)

end

mutual

/-- Python `str`/`repr` rendering of a decoded JSON value (the
`str(data["error"])` fallback in the Graph helpers). -/
def pyRepr : Json → String
  | .null => "None"
  | .bool true => "True"
  | .bool false => "False"
  | .num n => toString n
  | .str s => "\x27" ++ s ++ "\x27"
  | .arr xs => "[" ++ pyReprList xs ++ "]"
  | .obj kvs => "\x7b" ++ pyReprObj kvs ++ "\x7d"

def pyReprList : List Json → String
  | [] => ""
  | [x] => pyRepr x
  | x :: y :: xs => pyRepr x ++ ", " ++ pyReprList (y :: xs)

def pyReprObj : List (String × Json) → String
  | [] => ""
  | [kv] => "\x27" ++ kv.1 ++ "\x27: " ++ pyRepr kv.2
  | kv :: kv2 :: kvs =>
    "\x27" ++ kv.1 ++ "\x27: " ++ pyRepr kv.2 ++ ", " ++ pyReprObj (kv2 :: kvs)

end

/-- Python exceptions that can flow through the gateway core. -/
inductive PyErr where
  /-- `ValueError(msg)` raised by `server.py` itself. -/
  | valueError (msg : String)
  /-- An `httpx` transport exception (connection failure, timeout). -/
  | transportError (msg : String)
  /-- `httpx.HTTPStatusError` from `raise_for_status()` on a 4xx/5xx status. -/
  | httpStatusError (status : Nat)
  /-- `json.JSONDecodeError` from `resp.json()` on a non-JSON body. -/
  | jsonDecodeError
  /-- `AttributeError` (calling `.get`/`.update` on a non-dict). -/
  | attributeError
  /-- `TypeError` (subscripting / membership on an unsupported type). -/
  | typeError
  /-- `KeyError` (missing dict key on subscription). -/
  | keyError

/-- Modelled rendering of the `httpx.HTTPStatusError` message (library text,
not produced by `server.py`; no claim depends on its exact wording). -/
def httpStatusErrorText (status : Nat) : String :=
  "HTTP status error " ++ toString status

/-- Modelled rendering of the `json.JSONDecodeError` message (library text). -/
def jsonDecodeErrorText : String := "Expecting value"

/-- Modelled rendering of the `AttributeError` message (library text). -/
def attributeErrorText : String := "object has no attribute get"

/-- `str(e)` for a caught exception, as interpolated into the
`"Could not get page token for ..."` message. -/
def pyErrStr : PyErr → String
  | .valueError m => m
  | .transportError m => m
  | .httpStatusError st => httpStatusErrorText st
  | .jsonDecodeError => jsonDecodeErrorText
  | .attributeError => attributeErrorText
  | .typeError => "unsupported operand type"
  | .keyError => "key error"

/-- Outcome of one outbound HTTP call, supplied by the network oracle:
either a response with a status code and a decoded body (`none` when the
body is not valid JSON, so `resp.json()` raises), or a raised transport
exception. -/
inductive HttpResult where
  | ok (status : Nat) (body : Option Json)
  | exc (msg : String)

/-- One outbound HTTP request as actually sent (endpoint relative to the
Graph base URL, plus the query parameters / form body). -/
inductive Request where
  | get (endpoint : String) (params : List (String × Json))
  | post (endpoint : String) (payload : List (String × Json))
  | delete (endpoint : String) (params : List (String × Json))

/-- The parameter set carried by a request (query string for GET/DELETE,
form body for POST). -/
def Request.params : Request → List (String × Json)
  | .get _ ps => ps
  | .post _ ps => ps
  | .delete _ ps => ps

/-- Process environment: `META_SYSTEM_USER_TOKEN`, the parsed
`META_PAGE_TOKENS` map, `META_APP_ID`, `META_APP_SECRET`.  An unset
environment variable is the empty string (`os.environ.get(..., "")`). -/
structure Env where
  userToken : String
  pageTokens : List (String × String)
  appId : String
  appSecret : String

/-- `_user_token`: the configured user credential, `ValueError` when unset. -/
def user_token (env : Env) : Except PyErr String :=
  if env.userToken = "" then
    .error (.valueError "META_SYSTEM_USER_TOKEN env var is not set")
  else .ok env.userToken

/-- `_app_token`: app id and secret joined by a pipe, `ValueError` when
either half is missing. -/
def app_token (env : Env) : Except PyErr String :=
  if env.appId != "" && env.appSecret != "" then
    .ok (env.appId ++ "|" ++ env.appSecret)
  else .error (.valueError "META_APP_ID and META_APP_SECRET env vars are not set")

/-- `_exchange_page_token`: one authenticated read of the page entity's
`access_token` field using the user credential; every failure inside the
`try` block is caught and re-raised as
`ValueError("Could not get page token for <id>: <cause>")`. -/
def exchange_page_token (env : Env) (resp : HttpResult) (page_id : String) :
    Except PyErr Json × List Request :=
  match user_token env with
  | .error e =>
    (.error (.valueError ("Could not get page token for " ++ page_id ++ ": " ++ pyErrStr e)), [])
  | .ok u =>
    let req := Request.get page_id
      [("fields", Json.str "access_token"), ("access_token", Json.str u)]
    match resp with
    | .exc m =>
      (.error (.valueError ("Could not get page token for " ++ page_id ++ ": " ++ m)), [req])
    | .ok status body =>
      if 400 ≤ status then
        (.error (.valueError ("Could not get page token for " ++ page_id ++ ": "
          ++ httpStatusErrorText status)), [req])
      else
        match body with
        | none =>
          (.error (.valueError ("Could not get page token for " ++ page_id ++ ": "
            ++ jsonDecodeErrorText)), [req])
        | some data =>
          match data with
          | .obj kvs =>
            match lookupJ kvs "access_token" with
            | some v =>
              if pyTruthy v then (.ok v, [req])
              else
                (.error (.valueError ("Could not get page token for " ++ page_id ++ ": "
                  ++ "No access_token returned for page " ++ page_id)), [req])
            | none =>
              (.error (.valueError ("Could not get page token for " ++ page_id ++ ": "
                ++ "No access_token returned for page " ++ page_id)), [req])
          | _ =>
            (.error (.valueError ("Could not get page token for " ++ page_id ++ ": "
              ++ attributeErrorText)), [req])

/-- `_page_token`: static map lookup, falling through to the exchange when
the page id is absent or maps to a falsy value (`if not token:`). -/
def page_token (env : Env) (exchResp : HttpResult) (page_id : String) :
    Except PyErr Json × List Request :=
  match lookupStr env.pageTokens page_id with
  | some t => if t = "" then exchange_page_token env exchResp page_id else (.ok (Json.str t), [])
  | none => exchange_page_token env exchResp page_id

/-- Python `in` on a decoded JSON value (`"error" in data`): key membership
for dicts, element membership for lists, substring test for strings,
`TypeError` otherwise. -/
def py_contains (data : Json) (key : String) : Except PyErr Bool :=
  match data with
  | .obj kvs => .ok (kvs.any (fun kv => kv.1 == key))
  | .arr xs => .ok (xs.any (fun x => beqJson x (Json.str key)))
  | .str s => .ok ((s.splitOn key).length != 1)
  | _ => .error .typeError

/-- Python subscription `data[key]` on a decoded JSON value. -/
def py_index (data : Json) (key : String) : Except PyErr Json :=
  match data with
  | .obj kvs =>
    match lookupJ kvs key with
    | some v => .ok v
    | none => .error .keyError
  | _ => .error .typeError

/-- The response normalization shared by the three Graph helpers:
`if "error" in data: return {"error": data["error"].get("message", str(data["error"]))}`
else return `data` verbatim. -/
def normalize (data : Json) : Except PyErr Json :=
  match py_contains data "error" with
  | .error e => .error e
  | .ok true =>
    match py_index data "error" with
    | .error e => .error e
    | .ok err =>
      match err with
      | .obj ekvs =>
        .ok (Json.obj [("error", (lookupJ ekvs "message").getD (Json.str (pyRepr err)))])
      | _ => .error .attributeError
  | .ok false => .ok data

/-- Shared tail of the three Graph helpers: transport exceptions and
non-JSON bodies raise; a decoded body (any HTTP status) is normalized. -/
def graph_response : HttpResult → Except PyErr Json
  | .exc m => .error (.transportError m)
  | .ok _ none => .error .jsonDecodeError
  | .ok _ (some data) => normalize data

/-- `_graph_get`: inject the credential into the query parameters
(overwriting any caller-supplied `access_token`), send, normalize. -/
def graph_get (endpoint : String) (params : List (String × Json)) (token : Json)
    (resp : HttpResult) : Except PyErr Json × List Request :=
  (graph_response resp, [Request.get endpoint (setParam params "access_token" token)])

/-- `_graph_post`: inject the credential into the form body
(overwriting any caller-supplied `access_token`), send, normalize. -/
def graph_post (endpoint : String) (payload : List (String × Json)) (token : Json)
    (resp : HttpResult) : Except PyErr Json × List Request :=
  (graph_response resp, [Request.post endpoint (setParam payload "access_token" token)])

/-- `_graph_delete`: the credential is the only query parameter. -/
def graph_delete (endpoint : String) (token : Json) (resp : HttpResult) :
    Except PyErr Json × List Request :=
  (graph_response resp, [Request.delete endpoint [("access_token", token)]])

/-- `meta_list_pages`: GET `me/accounts` with the user token. -/
def meta_list_pages (env : Env) (resp : HttpResult) : Except PyErr Json × List Request :=
  match user_token env with
  | .error e => (.error e, [])
  | .ok u =>
    graph_get "me/accounts"
      [("fields", Json.str "id,name,category,fan_count,username"), ("limit", Json.str "100")]
      (Json.str u) resp

/-- `meta_get_page_posts`: GET `<page>/feed` with the page token and the limit
clamped into `[1, 100]`. -/
def meta_get_page_posts (env : Env) (exchResp mainResp : HttpResult)
    (page_id : String) (limit : Int) : Except PyErr Json × List Request :=
  match page_token env exchResp page_id with
  | (.error e, reqs) => (.error e, reqs)
  | (.ok tok, reqs) =>
    let pr := graph_get (page_id ++ "/feed")
      [("fields", Json.str "id,message,created_time,type,permalink_url,shares,likes.summary(true).limit(0),comments.summary(true).limit(0),attachments\x7bmedia_type,url,media\x7d"),
       ("limit", Json.str (toString (min (max limit 1) 100)))] tok mainResp
    (pr.1, reqs ++ pr.2)

/-- `meta_get_post_comments`: GET `<post>/comments`, limit clamped into `[1, 100]`. -/
def meta_get_post_comments (env : Env) (exchResp mainResp : HttpResult)
    (post_id page_id : String) (limit : Int) : Except PyErr Json × List Request :=
  match page_token env exchResp page_id with
  | (.error e, reqs) => (.error e, reqs)
  | (.ok tok, reqs) =>
    let pr := graph_get (post_id ++ "/comments")
      [("fields", Json.str "id,message,from\x7bid,name\x7d,created_time,like_count,comment_count,attachment\x7bmedia_type,url,media\x7d"),
       ("limit", Json.str (toString (min (max limit 1) 100)))] tok mainResp
    (pr.1, reqs ++ pr.2)

/-- `meta_get_ad_campaigns`: GET `<account>/campaigns` with the user token,
limit clamped into `[1, 100]`, plus a `filtering` parameter unless
`status_filter` upper-cases to `ALL`. -/
def meta_get_ad_campaigns (env : Env) (resp : HttpResult)
    (ad_account_id status_filter : String) (limit : Int) : Except PyErr Json × List Request :=
  match user_token env with
  | .error e => (.error e, [])
  | .ok u =>
    let params : List (String × Json) :=
      [("fields", Json.str "id,name,objective,status,effective_status,daily_budget,lifetime_budget,created_time"),
       ("limit", Json.str (toString (min (max limit 1) 100)))]
    let params :=
      if (pyUpper status_filter) != "ALL" then
        setParam params "filtering" (Json.str (dumps (Json.arr
          [Json.obj [("field", Json.str "effective_status"), ("operator", Json.str "IN"),
                     ("value", Json.arr [Json.str (pyUpper status_filter)])]])))
      else params
    graph_get (ad_account_id ++ "/campaigns") params (Json.str u) resp

/-- `meta_get_ad_adsets`: GET `<account>/adsets` with the user token; the
status clause (unless `ALL`) and then the optional campaign clause are
collected into one `filtering` JSON array. -/
def meta_get_ad_adsets (env : Env) (resp : HttpResult)
    (ad_account_id : String) (campaign_id : Option String) (status_filter : String)
    (limit : Int) : Except PyErr Json × List Request :=
  match user_token env with
  | .error e => (.error e, [])
  | .ok u =>
    let params : List (String × Json) :=
      [("fields", Json.str "id,name,campaign_id,status,effective_status,daily_budget,lifetime_budget,targeting,optimization_goal"),
       ("limit", Json.str (toString (min (max limit 1) 100)))]
    let filtering : List Json :=
      (if (pyUpper status_filter) != "ALL" then
        [Json.obj [("field", Json.str "effective_status"), ("operator", Json.str "IN"),
                   ("value", Json.arr [Json.str (pyUpper status_filter)])]]
       else [])
      ++ (if truthyOpt campaign_id then
        [Json.obj [("field", Json.str "campaign.id"), ("operator", Json.str "EQUAL"),
                   ("value", Json.str (campaign_id.getD ""))]]
       else [])
    let params :=
      if filtering.isEmpty then params
      else setParam params "filtering" (Json.str (dumps (Json.arr filtering)))
    graph_get (ad_account_id ++ "/adsets") params (Json.str u) resp

/-- `meta_get_ads`: GET `<account>/ads` with the user token; status clause
(unless `ALL`), then optional campaign clause, then optional adset clause,
collected into one `filtering` JSON array. -/
def meta_get_ads (env : Env) (resp : HttpResult)
    (ad_account_id : String) (campaign_id adset_id : Option String) (status_filter : String)
    (limit : Int) : Except PyErr Json × List Request :=
  match user_token env with
  | .error e => (.error e, [])
  | .ok u =>
    let params : List (String × Json) :=
      [("fields", Json.str "id,name,status,effective_status,campaign_id,adset_id,creative\x7bid,effective_object_story_id\x7d"),
       ("limit", Json.str (toString (min (max limit 1) 100)))]
    let filtering : List Json :=
      (if (pyUpper status_filter) != "ALL" then
        [Json.obj [("field", Json.str "effective_status"), ("operator", Json.str "IN"),
                   ("value", Json.arr [Json.str (pyUpper status_filter)])]]
       else [])
      ++ (if truthyOpt campaign_id then
        [Json.obj [("field", Json.str "campaign.id"), ("operator", Json.str "EQUAL"),
                   ("value", Json.str (campaign_id.getD ""))]]
       else [])
      ++ (if truthyOpt adset_id then
        [Json.obj [("field", Json.str "adset.id"), ("operator", Json.str "EQUAL"),
                   ("value", Json.str (adset_id.getD ""))]]
       else [])
    let params :=
      if filtering.isEmpty then params
      else setParam params "filtering" (Json.str (dumps (Json.arr filtering)))
    graph_get (ad_account_id ++ "/ads") params (Json.str u) resp

/-- `meta_get_ad_comments`: GET `<story>/comments` with the page token,
limit clamped into `[1, 100]`, plus the `filter` parameter. -/
def meta_get_ad_comments (env : Env) (exchResp mainResp : HttpResult)
    (effective_object_story_id page_id : String) (limit : Int) (filter_type : String) :
    Except PyErr Json × List Request :=
  match page_token env exchResp page_id with
  | (.error e, reqs) => (.error e, reqs)
  | (.ok tok, reqs) =>
    let pr := graph_get (effective_object_story_id ++ "/comments")
      [("fields", Json.str "id,message,from\x7bid,name\x7d,created_time,like_count,comment_count,is_hidden,attachment\x7bmedia_type,url,media\x7d"),
       ("limit", Json.str (toString (min (max limit 1) 100))),
       ("filter", Json.str filter_type)] tok mainResp
    (pr.1, reqs ++ pr.2)

/-- `meta_get_ig_media`: GET `<ig-account>/media` with the page token,
limit clamped into `[1, 50]`. -/
def meta_get_ig_media (env : Env) (exchResp mainResp : HttpResult)
    (ig_account_id page_id : String) (limit : Int) : Except PyErr Json × List Request :=
  match page_token env exchResp page_id with
  | (.error e, reqs) => (.error e, reqs)
  | (.ok tok, reqs) =>
    let pr := graph_get (ig_account_id ++ "/media")
      [("fields", Json.str "id,caption,media_type,media_url,permalink,timestamp,like_count,comments_count,thumbnail_url"),
       ("limit", Json.str (toString (min (max limit 1) 50)))] tok mainResp
    (pr.1, reqs ++ pr.2)

/-- `meta_get_ig_comments`: GET `<media>/comments`, limit clamped into `[1, 100]`. -/
def meta_get_ig_comments (env : Env) (exchResp mainResp : HttpResult)
    (media_id page_id : String) (limit : Int) : Except PyErr Json × List Request :=
  match page_token env exchResp page_id with
  | (.error e, reqs) => (.error e, reqs)
  | (.ok tok, reqs) =>
    let pr := graph_get (media_id ++ "/comments")
      [("fields", Json.str "id,text,username,timestamp,like_count,replies\x7bid,text,username,timestamp\x7d"),
       ("limit", Json.str (toString (min (max limit 1) 100)))] tok mainResp
    (pr.1, reqs ++ pr.2)

/-- `meta_get_conversations`: GET `<page>/conversations`, limit clamped into `[1, 50]`. -/
def meta_get_conversations (env : Env) (exchResp mainResp : HttpResult)
    (page_id : String) (limit : Int) : Except PyErr Json × List Request :=
  match page_token env exchResp page_id with
  | (.error e, reqs) => (.error e, reqs)
  | (.ok tok, reqs) =>
    let pr := graph_get (page_id ++ "/conversations")
      [("fields", Json.str "id,snippet,updated_time,message_count,participants,messages.limit(3)\x7bid,message,from,created_time\x7d"),
       ("limit", Json.str (toString (min (max limit 1) 50)))] tok mainResp
    (pr.1, reqs ++ pr.2)

/-- `meta_get_conversation_messages`: GET `<conversation>/messages`,
limit clamped into `[1, 100]`. -/
def meta_get_conversation_messages (env : Env) (exchResp mainResp : HttpResult)
    (conversation_id page_id : String) (limit : Int) : Except PyErr Json × List Request :=
  match page_token env exchResp page_id with
  | (.error e, reqs) => (.error e, reqs)
  | (.ok tok, reqs) =>
    let pr := graph_get (conversation_id ++ "/messages")
      [("fields", Json.str "id,message,from,to,created_time,attachments\x7bmime_type,name,size,url\x7d"),
       ("limit", Json.str (toString (min (max limit 1) 100)))] tok mainResp
    (pr.1, reqs ++ pr.2)

/-- `meta_get_lead_data`: GET `<form>/leads`, limit clamped into `[1, 100]`. -/
def meta_get_lead_data (env : Env) (exchResp mainResp : HttpResult)
    (form_id page_id : String) (limit : Int) : Except PyErr Json × List Request :=
  match page_token env exchResp page_id with
  | (.error e, reqs) => (.error e, reqs)
  | (.ok tok, reqs) =>
    let pr := graph_get (form_id ++ "/leads")
      [("fields", Json.str "id,created_time,field_data,ad_id,ad_name,campaign_id,campaign_name"),
       ("limit", Json.str (toString (min (max limit 1) 100)))] tok mainResp
    (pr.1, reqs ++ pr.2)

/-- Outcome of parsing/merging a caller-supplied JSON blob in the
escape-hatch operation. -/
inductive ParamsOutcome where
  /-- The blob was absent/falsy or parsed and merged successfully. -/
  | ok (ps : List (String × Json))
  /-- `json.JSONDecodeError`: the operation returns its parse-error result. -/
  | badJson
  /-- An exception raised while merging (non-mergeable parsed value). -/
  | raised (e : PyErr)

/-- `dict.update` with a decoded JSON value: merge a dict, merge a list of
two-element `[key, value]` pairs with string keys, `TypeError` otherwise. -/
def merge_loaded (ps : List (String × Json)) : Json → Except PyErr (List (String × Json))
  | .obj kvs => .ok (kvs.foldl (fun acc kv => setParam acc kv.1 kv.2) ps)
  | .arr xs =>
    xs.foldlM (fun acc x =>
      match x with
      | .arr [Json.str k, v] => .ok (setParam acc k v)
      | _ => .error PyErr.typeError) ps
  | _ => .error .typeError

/-- `if params: extra_params.update(json.loads(params))` with the parse
failure returned as the dedicated error result. -/
def parse_extra (jloads : String → Option Json) (ps : List (String × Json))
    (params : Option String) : ParamsOutcome :=
  if truthyOpt params then
    match jloads (params.getD "") with
    | none => .badJson
    | some j =>
      match merge_loaded ps j with
      | .ok ps2 => .ok ps2
      | .error e => .raised e
  else .ok ps

/-- `payload = json.loads(body)` for POST dispatch; a parsed non-dict value
raises `AttributeError` at the subsequent `payload.update(extra_params)`. -/
def post_payload (jloads : String → Option Json) (body : Option String) : ParamsOutcome :=
  if truthyOpt body then
    match jloads (body.getD "") with
    | none => .badJson
    | some (.obj kvs) => .ok kvs
    | some _ => .raised .attributeError
  else .ok []

/-- `meta_graph_api_call`: the generic escape hatch.  Resolves the
credential from `token_type` (page requires a truthy `page_id`; `app` the
app credential; anything else the user credential), merges `fields` and the
parsed `params` blob, then dispatches on the upper-cased method. -/
def meta_graph_api_call (env : Env) (exchResp mainResp : HttpResult)
    (jloads : String → Option Json) (endpoint method token_type : String)
    (page_id fields params body : Option String) : Except PyErr Json × List Request :=
  let rest := fun (token : Json) (reqs0 : List Request) =>
    let ep0 : List (String × Json) := []
    let ep1 :=
      if truthyOpt fields then setParam ep0 "fields" (Json.str (fields.getD "")) else ep0
    match parse_extra jloads ep1 params with
    | .badJson => (.ok (Json.obj [("error", Json.str "params must be valid JSON")]), reqs0)
    | .raised e => (.error e, reqs0)
    | .ok extra_params =>
      if (pyUpper method) = "GET" then
        let pr := graph_get endpoint extra_params token mainResp
        (pr.1, reqs0 ++ pr.2)
      else if (pyUpper method) = "POST" then
        match post_payload jloads body with
        | .badJson => (.ok (Json.obj [("error", Json.str "body must be valid JSON")]), reqs0)
        | .raised e => (.error e, reqs0)
        | .ok payload =>
          let payload2 := extra_params.foldl (fun acc kv => setParam acc kv.1 kv.2) payload
          let pr := graph_post endpoint payload2 token mainResp
          (pr.1, reqs0 ++ pr.2)
      else if (pyUpper method) = "DELETE" then
        let pr := graph_delete endpoint token mainResp
        (pr.1, reqs0 ++ pr.2)
      else
        (.ok (Json.obj [("error",
          Json.str ("Unsupported method: " ++ method ++ ". Use GET, POST, or DELETE."))]), reqs0)
  if token_type = "page" then
    if truthyOpt page_id = false then
      (.ok (Json.obj [("error", Json.str "page_id is required when token_type=\x27page\x27")]), [])
    else
      match page_token env exchResp (page_id.getD "") with
      | (.error e, reqs0) => (.error e, reqs0)
      | (.ok tok, reqs0) => rest tok reqs0
  else if token_type = "app" then
    match app_token env with
    | .error e => (.error e, [])
    | .ok t => rest (Json.str t) []
  else
    match user_token env with
    | .error e => (.error e, [])
    | .ok t => rest (Json.str t) []

/-- The values sent as the `limit` parameter across the requests a call
issued (the token-exchange request carries no `limit`). -/
def limitsSent (reqs : List Request) : List Json :=
  reqs.filterMap (fun r => lookupJ r.params "limit")

/-- The values sent as the `filtering` parameter across the requests a
call issued. -/
def filteringSent (reqs : List Request) : List Json :=
  reqs.filterMap (fun r => lookupJ r.params "filtering")

/-- The status Filter Clause as the specification describes it. -/
def statusClause (status_filter : String) : Json :=
  Json.obj [("field", Json.str "effective_status"), ("operator", Json.str "IN"),
            ("value", Json.arr [Json.str (pyUpper status_filter)])]

/-- An identity Filter Clause (`EQUAL` comparison) as the specification
describes it. -/
def equalClause (field value : String) : Json :=
  Json.obj [("field", Json.str field), ("operator", Json.str "EQUAL"),
            ("value", Json.str value)]

section Lemmas

theorem lookupJ_setParam_self (ps : List (String × Json)) (k : String) (v : Json) :
    lookupJ (setParam ps k v) k = some v := by
  induction ps with
  | nil => simp [setParam, lookupJ, List.find?]
  | cons kv rest ih =>
    rcases kv with ⟨k0, v0⟩
    by_cases h : k0 = k
    · subst h; simp [setParam, lookupJ, List.find?]
    · have hb : (k0 == k) = false := beq_eq_false_iff_ne.mpr h
      simp [setParam, h, lookupJ, List.find?, hb]
      simpa [lookupJ] using ih

theorem lookupJ_setParam_ne (ps : List (String × Json)) (k k2 : String) (v : Json)
    (h : k2 ≠ k) : lookupJ (setParam ps k v) k2 = lookupJ ps k2 := by
  have hb : (k == k2) = false := beq_eq_false_iff_ne.mpr (Ne.symm h)
  induction ps with
  | nil => simp [setParam, lookupJ, List.find?, hb]
  | cons kv rest ih =>
    rcases kv with ⟨k0, v0⟩
    by_cases hk : k0 = k
    · subst hk
      simp [setParam, lookupJ, List.find?, hb]
    · by_cases hk2 : k0 = k2
      · have hb2 : (k0 == k2) = true := beq_iff_eq.mpr hk2
        simp [setParam, hk, lookupJ, List.find?, hb2]
      · have hb2 : (k0 == k2) = false := beq_eq_false_iff_ne.mpr hk2
        simp [setParam, hk, lookupJ, List.find?, hb2]
        simpa [lookupJ] using ih

theorem limitsSent_append (a b : List Request) :
    limitsSent (a ++ b) = limitsSent a ++ limitsSent b := by
  simp [limitsSent]

theorem filteringSent_append (a b : List Request) :
    filteringSent (a ++ b) = filteringSent a ++ filteringSent b := by
  simp [filteringSent]

/-- The requests issued by `_page_token` are either none (map hit) or the
single exchange read, which carries only `fields` and `access_token`. -/
theorem page_token_snd (env : Env) (e : HttpResult) (pid : String) :
    (page_token env e pid).2 = [] ∨
    ∃ u, (page_token env e pid).2 =
      [Request.get pid [("fields", Json.str "access_token"), ("access_token", Json.str u)]] := by
  have hx : (exchange_page_token env e pid).2 = [] ∨
      ∃ u, (exchange_page_token env e pid).2 =
        [Request.get pid [("fields", Json.str "access_token"), ("access_token", Json.str u)]] := by
    cases hu : user_token env with
    | error e0 => exact Or.inl (by simp [exchange_page_token, hu])
    | ok u =>
      cases e with
      | exc m => exact Or.inr ⟨u, by simp [exchange_page_token, hu]⟩
      | ok st bd =>
        refine Or.inr ⟨u, ?_⟩
        by_cases hst : 400 ≤ st
        · simp [exchange_page_token, hu, hst]
        · cases bd with
          | none => simp [exchange_page_token, hu, hst]
          | some data =>
            cases data with
            | obj kvs =>
              cases hv : lookupJ kvs "access_token" with
              | none => simp [exchange_page_token, hu, hst, hv]
              | some v =>
                by_cases ht : pyTruthy v = true
                · simp [exchange_page_token, hu, hst, hv, ht]
                · simp [exchange_page_token, hu, hst, hv, ht]
            | null => simp [exchange_page_token, hu, hst]
            | bool b => simp [exchange_page_token, hu, hst]
            | num n => simp [exchange_page_token, hu, hst]
            | str s => simp [exchange_page_token, hu, hst]
            | arr xs => simp [exchange_page_token, hu, hst]
  unfold page_token
  cases hl : lookupStr env.pageTokens pid with
  | none => simpa using hx
  | some t =>
    by_cases ht : t = ""
    · simpa [ht] using hx
    · exact Or.inl (by simp [ht])

theorem limitsSent_page_token (env : Env) (e : HttpResult) (pid : String) :
    limitsSent (page_token env e pid).2 = [] := by
  rcases page_token_snd env e pid with h | ⟨u, h⟩ <;> rw [h] <;> rfl

theorem filteringSent_page_token (env : Env) (e : HttpResult) (pid : String) :
    filteringSent (page_token env e pid).2 = [] := by
  rcases page_token_snd env e pid with h | ⟨u, h⟩ <;> rw [h] <;> rfl

theorem limitsSent_graph_get (ep : String) (ps : List (String × Json)) (tok : Json)
    (resp : HttpResult) :
    limitsSent (graph_get ep ps tok resp).2 = (lookupJ ps "limit").toList := by
  have h := lookupJ_setParam_ne ps "access_token" "limit" tok (by decide)
  simp [graph_get, limitsSent, Request.params, List.filterMap, h]
  cases lookupJ ps "limit" <;> simp

theorem filteringSent_graph_get (ep : String) (ps : List (String × Json)) (tok : Json)
    (resp : HttpResult) :
    filteringSent (graph_get ep ps tok resp).2 = (lookupJ ps "filtering").toList := by
  have h := lookupJ_setParam_ne ps "access_token" "filtering" tok (by decide)
  simp [graph_get, filteringSent, Request.params, List.filterMap, h]
  cases lookupJ ps "filtering" <;> simp

theorem lookupJ_any_true {kvs : List (String × Json)} {k : String} {v : Json}
    (h : lookupJ kvs k = some v) : (kvs.any fun kv => kv.1 == k) = true := by
  have h2 : ((kvs.find? fun kv => kv.1 == k).map fun kv => kv.2) = some v := h
  rcases Option.map_eq_some'.mp h2 with ⟨kv0, hf, hv⟩
  have hp := (List.find?_eq_some.mp hf).1
  exact List.any_eq_true.mpr ⟨kv0, List.mem_of_find?_eq_some hf, hp⟩

theorem lookupJ_any_false {kvs : List (String × Json)} {k : String}
    (h : lookupJ kvs k = none) : (kvs.any fun kv => kv.1 == k) = false := by
  have h2 : ((kvs.find? fun kv => kv.1 == k).map fun kv => kv.2) = none := h
  have h3 := Option.map_eq_none'.mp h2
  rw [List.find?_eq_none] at h3
  simp only [List.any_eq_false]
  intro x hx
  simpa using h3 x hx

theorem normalize_error_obj {kvs ekvs : List (String × Json)}
    (h : lookupJ kvs "error" = some (Json.obj ekvs)) :
    normalize (Json.obj kvs) =
      .ok (Json.obj [("error",
        (lookupJ ekvs "message").getD (Json.str (pyRepr (Json.obj ekvs))))]) := by
  simp [normalize, py_contains, lookupJ_any_true h, py_index, h]

theorem normalize_no_error {kvs : List (String × Json)}
    (h : lookupJ kvs "error" = none) :
    normalize (Json.obj kvs) = .ok (Json.obj kvs) := by
  simp [normalize, py_contains, lookupJ_any_false h]

end Lemmas

/-- C7: for every decoded response body containing an `error` object, each of
the read, write and remove primitives returns `{error: <message field, or the
string rendering of the whole error object when no message field is
present>}`, for every verb and every transport status code; a decoded body
with no `error` key is returned verbatim. -/
theorem response_normalization :
    ∀ (endpoint : String) (ps : List (String × Json)) (token : Json) (status : Nat)
      (kvs ekvs : List (String × Json)),
      (lookupJ kvs "error" = some (Json.obj ekvs) →
        (graph_get endpoint ps token (.ok status (some (Json.obj kvs)))).1 =
          .ok (Json.obj [("error",
            (lookupJ ekvs "message").getD (Json.str (pyRepr (Json.obj ekvs))))]) ∧
        (graph_post endpoint ps token (.ok status (some (Json.obj kvs)))).1 =
          .ok (Json.obj [("error",
            (lookupJ ekvs "message").getD (Json.str (pyRepr (Json.obj ekvs))))]) ∧
        (graph_delete endpoint token (.ok status (some (Json.obj kvs)))).1 =
          .ok (Json.obj [("error",
            (lookupJ ekvs "message").getD (Json.str (pyRepr (Json.obj ekvs))))])) ∧
      (lookupJ kvs "error" = none →
        (graph_get endpoint ps token (.ok status (some (Json.obj kvs)))).1 =
          .ok (Json.obj kvs) ∧
        (graph_post endpoint ps token (.ok status (some (Json.obj kvs)))).1 =
          .ok (Json.obj kvs) ∧
        (graph_delete endpoint token (.ok status (some (Json.obj kvs)))).1 =
          .ok (Json.obj kvs)) := by
  intro endpoint ps token status kvs ekvs
  constructor
  · intro h
    have hn := normalize_error_obj h
    exact ⟨by simpa [graph_get, graph_response] using hn,
           by simpa [graph_post, graph_response] using hn,
           by simpa [graph_delete, graph_response] using hn⟩
  · intro h
    have hn := normalize_no_error h
    exact ⟨by simpa [graph_get, graph_response] using hn,
           by simpa [graph_post, graph_response] using hn,
           by simpa [graph_delete, graph_response] using hn⟩

/-- C7 witness: a remote body `{"error": {"message": "X"}}` converts to
`{"error": "X"}` on the read primitive at transport status 500. -/
theorem response_normalization_witness :
    (graph_get "me" [] (Json.str "t")
        (.ok 500 (some (Json.obj [("error", Json.obj [("message", Json.str "X")])])))).1 =
      .ok (Json.obj [("error", Json.str "X")]) :=
  ((response_normalization "me" [] (Json.str "t") 500
    [("error", Json.obj [("message", Json.str "X")])] [("message", Json.str "X")]).1 rfl).1

/-- C8: the read primitive always sends the resolved credential as the
`access_token` query parameter, and the write primitive injects it into the
form-encoded body, in both cases overwriting any caller-supplied value of
that name. -/
theorem access_token_injection :
    ∀ (endpoint : String) (ps : List (String × Json)) (token : Json) (resp : HttpResult),
      (graph_get endpoint ps token resp).2 =
        [Request.get endpoint (setParam ps "access_token" token)] ∧
      (graph_post endpoint ps token resp).2 =
        [Request.post endpoint (setParam ps "access_token" token)] ∧
      lookupJ (setParam ps "access_token" token) "access_token" = some token :=
  fun _ ps token _ => ⟨rfl, rfl, lookupJ_setParam_self ps _ token⟩

/-- C9: the escape-hatch operation with `token_type="page"` and no (falsy)
`page_id` returns `{"error": "page_id is required when token_type='page'"}`,
issues no network request, and its result is independent of the environment
and of the network oracle (no credential resolution happens). -/
theorem page_token_requires_page_id :
    ∀ (env : Env) (e m : HttpResult) (jloads : String → Option Json)
      (endpoint method : String) (page_id fields params body : Option String),
      truthyOpt page_id = false →
      meta_graph_api_call env e m jloads endpoint method "page" page_id fields params body =
        (.ok (Json.obj [("error", Json.str "page_id is required when token_type=\x27page\x27")]),
         []) := by
  intro env e m jloads endpoint method page_id fields params body h
  simp [meta_graph_api_call, h]

/-- C9 witness at a concrete environment and oracle. -/
theorem page_token_requires_page_id_witness :
    meta_graph_api_call ⟨"U", [], "", ""⟩ (.exc "a") (.exc "b") (fun _ => none)
        "me" "GET" "page" none none none none =
      (.ok (Json.obj [("error", Json.str "page_id is required when token_type=\x27page\x27")]),
       []) :=
  page_token_requires_page_id ⟨"U", [], "", ""⟩ (.exc "a") (.exc "b") (fun _ => none)
    "me" "GET" none none none none rfl

/-- C10: every `token_type` other than `"page"` and `"app"` (comparison is
case-sensitive and exact) behaves identically to `"user"`: the user
credential is resolved and sent as `access_token`, with no unrecognized
selector error. -/
theorem token_type_fallback_user :
    (∀ (env : Env) (e m : HttpResult) (jloads : String → Option Json)
       (endpoint method token_type : String) (page_id fields params body : Option String),
       token_type ≠ "page" → token_type ≠ "app" →
       meta_graph_api_call env e m jloads endpoint method token_type page_id fields params body =
         meta_graph_api_call env e m jloads endpoint method "user" page_id fields params body) ∧
    (∀ (env : Env) (e m : HttpResult) (jloads : String → Option Json)
       (endpoint token_type : String),
       token_type ≠ "page" → token_type ≠ "app" → env.userToken ≠ "" →
       (meta_graph_api_call env e m jloads endpoint "GET" token_type none none none none).2 =
         [Request.get endpoint (setParam [] "access_token" (Json.str env.userToken))] ∧
       lookupJ (setParam [] "access_token" (Json.str env.userToken)) "access_token" =
         some (Json.str env.userToken)) := by
  constructor
  · intro env e m jloads endpoint method token_type page_id fields params body h1 h2
    simp [meta_graph_api_call, h1, h2]
  · intro env e m jloads endpoint token_type h1 h2 hu
    refine ⟨?_, lookupJ_setParam_self [] _ _⟩
    have hG : pyUpper "GET" = "GET" := rfl
    simp [meta_graph_api_call, h1, h2, user_token, hu, parse_extra, truthyOpt, graph_get, hG]

/-- The Filter Clause list as the specification describes it: the status
clause unless `ALL` is requested, then the campaign clause, then the adset
clause, each only when supplied. -/
def specClauses (s : String) (c a : Option String) : List Json :=
  (if pyUpper s = "ALL" then [] else [statusClause s]) ++
  (if truthyOpt c then [equalClause "campaign.id" (c.getD "")] else []) ++
  (if truthyOpt a then [equalClause "adset.id" (a.getD "")] else [])

/-- The `filtering` parameter the specification predicts from a clause
list: absent when there are no clauses, otherwise the clauses serialized
together as one JSON array. -/
def specFiltering (cls : List Json) : List Json :=
  if cls.isEmpty then [] else [Json.str (dumps (Json.arr cls))]

/-- C3 counterexample: with `status_filter="all"` but a campaign identity
filter supplied, the ad-sets listing does emit a `filtering` parameter
(holding the identity clause), so the parameter set is not free of the
`filtering` key for every `all`-status invocation. -/
theorem adsets_all_with_campaign_has_filtering :
    filteringSent (meta_get_ad_adsets ⟨"u", [], "", ""⟩ (.ok 200 (some (Json.obj [])))
        "act_1" (some "123") "all" 25).2 =
      [Json.str (dumps (Json.arr [equalClause "campaign.id" "123"]))] ∧
    [Json.str (dumps (Json.arr [equalClause "campaign.id" "123"]))] ≠ ([] : List Json) :=
  ⟨rfl, by simp⟩

/-- C3 (amended): when `status_filter` upper-cases to `ALL` and no identity
filters are supplied, the emitted parameter set contains no `filtering`
key; for any other status value the `filtering` parameter is the
serialization of a clause list whose first element is
`{field: effective_status, operator: IN, value: [<status uppercased>]}`,
whatever identity filters accompany it. -/
theorem status_filter_encoding :
    ∀ (env : Env) (m : HttpResult) (acct s : String) (n : Int) (c a : Option String),
      env.userToken ≠ "" →
      (pyUpper s = "ALL" →
        filteringSent (meta_get_ad_campaigns env m acct s n).2 = [] ∧
        (truthyOpt c = false →
          filteringSent (meta_get_ad_adsets env m acct c s n).2 = []) ∧
        (truthyOpt c = false → truthyOpt a = false →
          filteringSent (meta_get_ads env m acct c a s n).2 = [])) ∧
      (pyUpper s ≠ "ALL" →
        filteringSent (meta_get_ad_campaigns env m acct s n).2 =
          [Json.str (dumps (Json.arr [statusClause s]))] ∧
        (∃ rest, filteringSent (meta_get_ad_adsets env m acct c s n).2 =
          [Json.str (dumps (Json.arr (statusClause s :: rest)))]) ∧
        (∃ rest, filteringSent (meta_get_ads env m acct c a s n).2 =
          [Json.str (dumps (Json.arr (statusClause s :: rest)))])) := by
  intro env m acct s n c a hu
  have husr : user_token env = .ok env.userToken := by simp [user_token, hu]
  constructor
  · intro hs
    have hb : (pyUpper s != "ALL") = false := by simp [hs]
    refine ⟨?_, ?_, ?_⟩
    · unfold meta_get_ad_campaigns
      rw [husr]
      simp only [filteringSent_graph_get, hb]
      rfl
    · intro hc
      unfold meta_get_ad_adsets
      rw [husr]
      simp only [filteringSent_graph_get, hb, hc]
      rfl
    · intro hc ha
      unfold meta_get_ads
      rw [husr]
      simp only [filteringSent_graph_get, hb, hc, ha]
      rfl
  · intro hs
    have hb : (pyUpper s != "ALL") = true := bne_iff_ne.mpr hs
    refine ⟨?_, ?_, ?_⟩
    · unfold meta_get_ad_campaigns
      rw [husr]
      simp only [filteringSent_graph_get, hb]
      rfl
    · by_cases hc : truthyOpt c = true
      · refine ⟨[equalClause "campaign.id" (c.getD "")], ?_⟩
        unfold meta_get_ad_adsets
        rw [husr]
        simp only [filteringSent_graph_get, hb, hc]
        rfl
      · have hc2 : truthyOpt c = false := by simpa using hc
        refine ⟨[], ?_⟩
        unfold meta_get_ad_adsets
        rw [husr]
        simp only [filteringSent_graph_get, hb, hc2]
        rfl
    · by_cases hc : truthyOpt c = true
      · by_cases ha : truthyOpt a = true
        · refine ⟨[equalClause "campaign.id" (c.getD ""),
            equalClause "adset.id" (a.getD "")], ?_⟩
          unfold meta_get_ads
          rw [husr]
          simp only [filteringSent_graph_get, hb, hc, ha]
          rfl
        · have ha2 : truthyOpt a = false := by simpa using ha
          refine ⟨[equalClause "campaign.id" (c.getD "")], ?_⟩
          unfold meta_get_ads
          rw [husr]
          simp only [filteringSent_graph_get, hb, hc, ha2]
          rfl
      · have hc2 : truthyOpt c = false := by simpa using hc
        by_cases ha : truthyOpt a = true
        · refine ⟨[equalClause "adset.id" (a.getD "")], ?_⟩
          unfold meta_get_ads
          rw [husr]
          simp only [filteringSent_graph_get, hb, hc2, ha]
          rfl
        · have ha2 : truthyOpt a = false := by simpa using ha
          refine ⟨[], ?_⟩
          unfold meta_get_ads
          rw [husr]
          simp only [filteringSent_graph_get, hb, hc2, ha2]
          rfl

/-- C3 witness: `"aLl"` (mixed case) emits no `filtering` parameter on the
campaigns listing, while `"paused"` emits the upper-cased status clause. -/
theorem status_filter_encoding_witness :
    filteringSent (meta_get_ad_campaigns ⟨"u", [], "", ""⟩ (.ok 200 (some (Json.obj [])))
        "act" "aLl" 25).2 = [] ∧
    filteringSent (meta_get_ad_campaigns ⟨"u", [], "", ""⟩ (.ok 200 (some (Json.obj [])))
        "act" "paused" 25).2 = [Json.str (dumps (Json.arr [statusClause "paused"]))] :=
  ⟨((status_filter_encoding ⟨"u", [], "", ""⟩ (.ok 200 (some (Json.obj []))) "act" "aLl" 25
      none none (by decide)).1 (by decide)).1,
   ((status_filter_encoding ⟨"u", [], "", ""⟩ (.ok 200 (some (Json.obj []))) "act" "paused" 25
      none none (by decide)).2 (by decide)).1⟩

/-- C4: the clause lists the ad-sets and ads listings send are exactly the
specification's clause order (status clause first when present, campaign
before adset, each an `EQUAL` clause), serialized together as one JSON
array under the single `filtering` parameter; identity filters without a
status filter still produce a `filtering` parameter. -/
theorem filter_clause_composition :
    ∀ (env : Env) (m : HttpResult) (acct s : String) (n : Int) (c a : Option String),
      env.userToken ≠ "" →
      filteringSent (meta_get_ad_adsets env m acct c s n).2 =
        specFiltering (specClauses s c none) ∧
      filteringSent (meta_get_ads env m acct c a s n).2 =
        specFiltering (specClauses s c a) ∧
      (truthyOpt c = true →
        filteringSent (meta_get_ads env m acct c a "all" n).2 ≠ []) := by
  intro env m acct s n c a hu
  have husr : user_token env = .ok env.userToken := by simp [user_token, hu]
  have main : ∀ (s2 : String) (a2 : Option String),
      filteringSent (meta_get_ads env m acct c a2 s2 n).2 =
        specFiltering (specClauses s2 c a2) := by
    intro s2 a2
    unfold meta_get_ads
    rw [husr]
    simp only [filteringSent_graph_get]
    by_cases hs : pyUpper s2 = "ALL"
    · have hb : (pyUpper s2 != "ALL") = false := by simp [hs]
      by_cases hc : truthyOpt c = true
      · by_cases ha : truthyOpt a2 = true
        · simp only [hb, hc, ha, specClauses, specFiltering, if_pos hs]; rfl
        · have ha2 : truthyOpt a2 = false := by simpa using ha
          simp only [hb, hc, ha2, specClauses, specFiltering, if_pos hs]; rfl
      · have hc2 : truthyOpt c = false := by simpa using hc
        by_cases ha : truthyOpt a2 = true
        · simp only [hb, hc2, ha, specClauses, specFiltering, if_pos hs]; rfl
        · have ha2 : truthyOpt a2 = false := by simpa using ha
          simp only [hb, hc2, ha2, specClauses, specFiltering, if_pos hs]; rfl
    · have hb : (pyUpper s2 != "ALL") = true := bne_iff_ne.mpr hs
      by_cases hc : truthyOpt c = true
      · by_cases ha : truthyOpt a2 = true
        · simp only [hb, hc, ha, specClauses, specFiltering, if_neg hs]; rfl
        · have ha2 : truthyOpt a2 = false := by simpa using ha
          simp only [hb, hc, ha2, specClauses, specFiltering, if_neg hs]; rfl
      · have hc2 : truthyOpt c = false := by simpa using hc
        by_cases ha : truthyOpt a2 = true
        · simp only [hb, hc2, ha, specClauses, specFiltering, if_neg hs]; rfl
        · have ha2 : truthyOpt a2 = false := by simpa using ha
          simp only [hb, hc2, ha2, specClauses, specFiltering, if_neg hs]; rfl
  have adsets : filteringSent (meta_get_ad_adsets env m acct c s n).2 =
      specFiltering (specClauses s c none) := by
    unfold meta_get_ad_adsets
    rw [husr]
    simp only [filteringSent_graph_get]
    by_cases hs : pyUpper s = "ALL"
    · have hb : (pyUpper s != "ALL") = false := by simp [hs]
      by_cases hc : truthyOpt c = true
      · simp only [hb, hc, specClauses, specFiltering, if_pos hs]; rfl
      · have hc2 : truthyOpt c = false := by simpa using hc
        simp only [hb, hc2, specClauses, specFiltering, if_pos hs]; rfl
    · have hb : (pyUpper s != "ALL") = true := bne_iff_ne.mpr hs
      by_cases hc : truthyOpt c = true
      · simp only [hb, hc, specClauses, specFiltering, if_neg hs]; rfl
      · have hc2 : truthyOpt c = false := by simpa using hc
        simp only [hb, hc2, specClauses, specFiltering, if_neg hs]; rfl
  refine ⟨adsets, main s a, ?_⟩
  intro hc
  rw [main "all" a]
  by_cases ha : truthyOpt a = true
  · simp [specClauses, specFiltering, hc, ha]
  · have ha2 : truthyOpt a = false := by simpa using ha
    simp [specClauses, specFiltering, hc, ha2]

/-- C4 witness: a campaign filter with status `all` on the ads listing still
produces a `filtering` parameter holding exactly the identity clause. -/
theorem filter_clause_composition_witness :
    filteringSent (meta_get_ads ⟨"u", [], "", ""⟩ (.ok 200 (some (Json.obj [])))
        "act" (some "c9") none "all" 25).2 ≠ [] :=
  ((filter_clause_composition ⟨"u", [], "", ""⟩ (.ok 200 (some (Json.obj []))) "act" "all" 25
    (some "c9") none (by decide)).2).2 (by decide)

/-- C2 counterexample: the conversations listing accepts a result-count
limit but clamps it with ceiling 50, although it is not the Instagram-media
listing: with limit 100 the request carries `"50"`, while the claimed
formula with ceiling 100 yields `"100"`. -/
theorem conversations_limit_ceiling_fifty :
    limitsSent (meta_get_conversations ⟨"u", [("p", "T")], "", ""⟩
        (.ok 200 (some (Json.obj []))) (.ok 200 (some (Json.obj []))) "p" 100).2 =
      [Json.str "50"] ∧
    toString (min (max (100 : Int) 1) 100) = "100" ∧ ("50" : String) ≠ "100" :=
  ⟨rfl, rfl, by decide⟩

/-- C2 (amended): every limit-accepting operation sends
`min(max(n, 1), ceiling)` as the `limit` parameter, coercing out-of-range
values instead of rejecting them; the ceiling is 50 for the Instagram-media
listing and for the conversations listing, and 100 for the other collection
listings. -/
theorem limit_clamping :
    ∀ (env : Env) (e m : HttpResult) (idA pid : String) (n : Int) (ft : String)
      (tok : Json) (reqs : List Request) (acct s : String) (c a : Option String),
      (page_token env e pid = (.ok tok, reqs) →
        limitsSent (meta_get_page_posts env e m pid n).2 =
          [Json.str (toString (min (max n 1) 100))] ∧
        limitsSent (meta_get_post_comments env e m idA pid n).2 =
          [Json.str (toString (min (max n 1) 100))] ∧
        limitsSent (meta_get_ad_comments env e m idA pid n ft).2 =
          [Json.str (toString (min (max n 1) 100))] ∧
        limitsSent (meta_get_ig_media env e m idA pid n).2 =
          [Json.str (toString (min (max n 1) 50))] ∧
        limitsSent (meta_get_ig_comments env e m idA pid n).2 =
          [Json.str (toString (min (max n 1) 100))] ∧
        limitsSent (meta_get_conversations env e m pid n).2 =
          [Json.str (toString (min (max n 1) 50))] ∧
        limitsSent (meta_get_conversation_messages env e m idA pid n).2 =
          [Json.str (toString (min (max n 1) 100))] ∧
        limitsSent (meta_get_lead_data env e m idA pid n).2 =
          [Json.str (toString (min (max n 1) 100))]) ∧
      (env.userToken ≠ "" →
        limitsSent (meta_get_ad_campaigns env m acct s n).2 =
          [Json.str (toString (min (max n 1) 100))] ∧
        limitsSent (meta_get_ad_adsets env m acct c s n).2 =
          [Json.str (toString (min (max n 1) 100))] ∧
        limitsSent (meta_get_ads env m acct c a s n).2 =
          [Json.str (toString (min (max n 1) 100))]) := by
  intro env e m idA pid n ft tok reqs acct s c a
  constructor
  · intro hpt
    have h0 : limitsSent reqs = [] := by
      have hx := limitsSent_page_token env e pid
      rw [hpt] at hx; exact hx
    refine ⟨?_, ?_, ?_, ?_, ?_, ?_, ?_, ?_⟩
    · unfold meta_get_page_posts
      rw [hpt]
      simp only [limitsSent_append, limitsSent_graph_get, h0]
      rfl
    · unfold meta_get_post_comments
      rw [hpt]
      simp only [limitsSent_append, limitsSent_graph_get, h0]
      rfl
    · unfold meta_get_ad_comments
      rw [hpt]
      simp only [limitsSent_append, limitsSent_graph_get, h0]
      rfl
    · unfold meta_get_ig_media
      rw [hpt]
      simp only [limitsSent_append, limitsSent_graph_get, h0]
      rfl
    · unfold meta_get_ig_comments
      rw [hpt]
      simp only [limitsSent_append, limitsSent_graph_get, h0]
      rfl
    · unfold meta_get_conversations
      rw [hpt]
      simp only [limitsSent_append, limitsSent_graph_get, h0]
      rfl
    · unfold meta_get_conversation_messages
      rw [hpt]
      simp only [limitsSent_append, limitsSent_graph_get, h0]
      rfl
    · unfold meta_get_lead_data
      rw [hpt]
      simp only [limitsSent_append, limitsSent_graph_get, h0]
      rfl
  · intro hu
    have husr : user_token env = .ok env.userToken := by simp [user_token, hu]
    have hlim : ∀ ps v, lookupJ (setParam ps "filtering" v) "limit" = lookupJ ps "limit" :=
      fun ps v => lookupJ_setParam_ne ps "filtering" "limit" v (by decide)
    have key : ∀ (cond : Bool) (base : List (String × Json)) (v : Json),
        lookupJ (if cond = true then base else setParam base "filtering" v) "limit" =
          lookupJ base "limit" := by
      intro cond base v
      cases cond
      · simp [hlim]
      · simp
    have key2 : ∀ (cond : Bool) (base : List (String × Json)) (v : Json),
        lookupJ (if cond = true then setParam base "filtering" v else base) "limit" =
          lookupJ base "limit" := by
      intro cond base v
      cases cond
      · simp
      · simp [hlim]
    refine ⟨?_, ?_, ?_⟩
    · unfold meta_get_ad_campaigns
      rw [husr]
      simp only [limitsSent_graph_get]
      rw [key2]
      rfl
    · unfold meta_get_ad_adsets
      rw [husr]
      simp only [limitsSent_graph_get]
      rw [key]
      rfl
    · unfold meta_get_ads
      rw [husr]
      simp only [limitsSent_graph_get]
      rw [key]
      rfl

/-- C2 witness: boundary limits at a concrete environment: 0 clamps to 1,
51 clamps to 50 on Instagram media, 101 clamps to 100 on campaigns. -/
theorem limit_clamping_witness :
    limitsSent (meta_get_page_posts ⟨"u", [("p", "T")], "", ""⟩ (.ok 200 (some (Json.obj [])))
        (.ok 200 (some (Json.obj []))) "p" 0).2 = [Json.str "1"] ∧
    limitsSent (meta_get_ig_media ⟨"u", [("p", "T")], "", ""⟩ (.ok 200 (some (Json.obj [])))
        (.ok 200 (some (Json.obj []))) "ig" "p" 51).2 = [Json.str "50"] ∧
    limitsSent (meta_get_ad_campaigns ⟨"u", [("p", "T")], "", ""⟩ (.ok 200 (some (Json.obj [])))
        "act" "ACTIVE" 101).2 = [Json.str "100"] := by
  refine ⟨?_, ?_, ?_⟩
  · exact ((limit_clamping ⟨"u", [("p", "T")], "", ""⟩ (.ok 200 (some (Json.obj [])))
      (.ok 200 (some (Json.obj []))) "x" "p" 0 "t" (Json.str "T") [] "act" "ACTIVE"
      none none).1 rfl).1
  · exact (((((limit_clamping ⟨"u", [("p", "T")], "", ""⟩ (.ok 200 (some (Json.obj [])))
      (.ok 200 (some (Json.obj []))) "ig" "p" 51 "t" (Json.str "T") [] "act" "ACTIVE"
      none none).1 rfl).2).2).2).1
  · exact ((limit_clamping ⟨"u", [("p", "T")], "", ""⟩ (.ok 200 (some (Json.obj [])))
      (.ok 200 (some (Json.obj []))) "x" "p" 101 "t" (Json.str "T") [] "act" "ACTIVE"
      none none).2 (by decide)).1

/-- C1 counterexample: with the user credential unset, the page-listing
operation raises `ValueError` out of the operation body (modelled as
`.error`) instead of returning a `{error: ...}` result: the missing-credential
error is not caught at the operation boundary, so it escapes to the hosting
transport layer. -/
theorem list_pages_missing_token_raises :
    (meta_list_pages ⟨"", [], "", ""⟩ (.ok 200 (some (Json.obj [])))).1 =
      .error (.valueError "META_SYSTEM_USER_TOKEN env var is not set") := rfl

/-- C1 (amended): remote error payloads are converted to `{error: ...}`
inside the Graph helpers before the operation returns, and the escape
hatch itself catches caller JSON parse failures and unsupported verbs; but
missing-credential errors, transport failures and malformed response
bodies raise exceptions that escape the operation uncaught. -/
theorem error_handling_classification :
    (∀ (env : Env) (st : Nat) (ekvs : List (String × Json)), env.userToken ≠ "" →
      (meta_list_pages env (.ok st (some (Json.obj [("error", Json.obj ekvs)])))).1 =
        .ok (Json.obj [("error",
          (lookupJ ekvs "message").getD (Json.str (pyRepr (Json.obj ekvs))))])) ∧
    (∀ (env : Env) (msg : String), env.userToken ≠ "" →
      (meta_list_pages env (.exc msg)).1 = .error (.transportError msg)) ∧
    (∀ (env : Env) (st : Nat), env.userToken ≠ "" →
      (meta_list_pages env (.ok st none)).1 = .error .jsonDecodeError) ∧
    (∀ (env : Env) (r : HttpResult), env.userToken = "" →
      (meta_list_pages env r).1 =
        .error (.valueError "META_SYSTEM_USER_TOKEN env var is not set")) ∧
    (∀ (env : Env) (e m : HttpResult) (jloads : String → Option Json)
       (endpoint method : String), env.userToken ≠ "" →
       pyUpper method ≠ "GET" → pyUpper method ≠ "POST" → pyUpper method ≠ "DELETE" →
       meta_graph_api_call env e m jloads endpoint method "user" none none none none =
         (.ok (Json.obj [("error", Json.str
           ("Unsupported method: " ++ method ++ ". Use GET, POST, or DELETE."))]), [])) ∧
    (∀ (env : Env) (e m : HttpResult) (jloads : String → Option Json)
       (endpoint p : String), env.userToken ≠ "" → p ≠ "" → jloads p = none →
       meta_graph_api_call env e m jloads endpoint "GET" "user" none none (some p) none =
         (.ok (Json.obj [("error", Json.str "params must be valid JSON")]), [])) := by
  refine ⟨?_, ?_, ?_, ?_, ?_, ?_⟩
  · intro env st ekvs hu
    have husr : user_token env = .ok env.userToken := by simp [user_token, hu]
    unfold meta_list_pages
    rw [husr]
    simp only [graph_get, graph_response]
    exact normalize_error_obj rfl
  · intro env msg hu
    have husr : user_token env = .ok env.userToken := by simp [user_token, hu]
    unfold meta_list_pages
    rw [husr]
    rfl
  · intro env st hu
    have husr : user_token env = .ok env.userToken := by simp [user_token, hu]
    unfold meta_list_pages
    rw [husr]
    rfl
  · intro env r hu
    have husr : user_token env =
        .error (.valueError "META_SYSTEM_USER_TOKEN env var is not set") := by
      simp [user_token, hu]
    unfold meta_list_pages
    rw [husr]
  · intro env e m jloads endpoint method hu h1 h2 h3
    have husr : user_token env = .ok env.userToken := by simp [user_token, hu]
    simp [meta_graph_api_call, husr, parse_extra, truthyOpt, h1, h2, h3]
  · intro env e m jloads endpoint p hu hp hj
    have husr : user_token env = .ok env.userToken := by simp [user_token, hu]
    have hG : pyUpper "GET" = "GET" := rfl
    simp [meta_graph_api_call, husr, parse_extra, truthyOpt, hp, hj, hG]

/-- C1 witness: concrete instances of the caught cases (remote error
payload, parse failure, unsupported verb) and the escaping cases
(transport failure). -/
theorem error_handling_classification_witness :
    (meta_list_pages ⟨"U", [], "", ""⟩
        (.ok 400 (some (Json.obj [("error", Json.obj [("message", Json.str "bad")])])))).1 =
      .ok (Json.obj [("error", Json.str "bad")]) ∧
    (meta_list_pages ⟨"U", [], "", ""⟩ (.exc "boom")).1 = .error (.transportError "boom") ∧
    meta_graph_api_call ⟨"U", [], "", ""⟩ (.exc "a") (.exc "b") (fun _ => none)
        "me" "PATCH" "user" none none none none =
      (.ok (Json.obj [("error",
        Json.str "Unsupported method: PATCH. Use GET, POST, or DELETE.")]), []) ∧
    meta_graph_api_call ⟨"U", [], "", ""⟩ (.exc "a") (.exc "b") (fun _ => none)
        "me" "GET" "user" none none (some "notjson") none =
      (.ok (Json.obj [("error", Json.str "params must be valid JSON")]), []) := by
  refine ⟨?_, ?_, ?_, ?_⟩
  · exact error_handling_classification.1 ⟨"U", [], "", ""⟩ 400
      [("message", Json.str "bad")] (by decide)
  · exact error_handling_classification.2.1 ⟨"U", [], "", ""⟩ "boom" (by decide)
  · exact error_handling_classification.2.2.2.2.1 ⟨"U", [], "", ""⟩ (.exc "a") (.exc "b")
      (fun _ => none) "me" "PATCH" (by decide) (by decide) (by decide) (by decide)
  · exact error_handling_classification.2.2.2.2.2 ⟨"U", [], "", ""⟩ (.exc "a") (.exc "b")
      (fun _ => none) "me" "notjson" (by decide) (by decide) rfl

/-- C5 counterexample: a page id present as a key in the static map but
mapped to the empty string is treated as falsy (`if not token:`): the
resolver performs the network exchange (one request) and returns the
exchanged token `"X"`, not the mapped value `""`. -/
theorem empty_mapped_token_triggers_exchange :
    lookupStr [("42", "")] "42" = some "" ∧
    (page_token ⟨"u", [("42", "")], "", ""⟩
        (.ok 200 (some (Json.obj [("access_token", Json.str "X")]))) "42").2.length = 1 ∧
    (page_token ⟨"u", [("42", "")], "", ""⟩
        (.ok 200 (some (Json.obj [("access_token", Json.str "X")]))) "42").1 =
      .ok (Json.str "X") ∧
    Json.str "X" ≠ Json.str "" :=
  ⟨rfl, rfl, rfl, by simp⟩

/-- C5 (amended): resolving a page id mapped to a non-empty credential in
the static map returns exactly that value and issues zero network
requests; an entry mapped to the empty string instead falls through to the
exchange path. -/
theorem map_hit_no_network :
    ∀ (env : Env) (e : HttpResult) (pid t : String),
      lookupStr env.pageTokens pid = some t → t ≠ "" →
      page_token env e pid = (.ok (Json.str t), []) := by
  intro env e pid t h ht
  unfold page_token
  rw [h]
  simp [ht]

/-- C5 witness: a mapped page id resolves with no network call even when
the transport would fail. -/
theorem map_hit_no_network_witness :
    page_token ⟨"u", [("p", "T")], "", ""⟩ (.exc "net down") "p" = (.ok (Json.str "T"), []) :=
  map_hit_no_network ⟨"u", [("p", "T")], "", ""⟩ (.exc "net down") "p" "T" rfl (by decide)

/-- A successful exchange never returns a falsy (in particular empty) token. -/
theorem exchange_ok_truthy (env : Env) (r : HttpResult) (pid : String) (v : Json)
    (h : (exchange_page_token env r pid).1 = .ok v) : pyTruthy v = true := by
  unfold exchange_page_token at h
  cases hu : user_token env with
  | error e0 => rw [hu] at h; simp at h
  | ok u =>
    rw [hu] at h
    cases r with
    | exc m => simp at h
    | ok st bd =>
      by_cases hst : 400 ≤ st
      · simp [hst] at h
      · cases bd with
        | none => simp [hst] at h
        | some data =>
          cases data with
          | obj kvs =>
            cases hv : lookupJ kvs "access_token" with
            | none => simp [hst, hv] at h
            | some w =>
              by_cases hw : pyTruthy w = true
              · simp [hst, hv, hw] at h
                rw [h] at hw; exact hw
              · simp [hst, hv, hw] at h
          | null => simp [hst] at h
          | bool b => simp [hst] at h
          | num n2 => simp [hst] at h
          | str s2 => simp [hst] at h
          | arr xs => simp [hst] at h

/-- C6: on a static-map miss, with the user credential configured,
`_page_token` issues exactly one exchange read of the page entity's
`access_token` field authorized by the user credential; a well-formed
response yields that field's value; a response lacking the field, a
transport failure, and a remote error status each raise a `ValueError`
carrying the page id and the underlying cause; and a successful result is
never a falsy (partial/empty) token. -/
theorem exchange_on_map_miss :
    ∀ (env : Env) (r : HttpResult) (pid : String),
      lookupStr env.pageTokens pid = none → env.userToken ≠ "" →
      (page_token env r pid).2 =
        [Request.get pid [("fields", Json.str "access_token"),
                          ("access_token", Json.str env.userToken)]] ∧
      (∀ st kvs t, st < 400 → lookupJ kvs "access_token" = some (Json.str t) → t ≠ "" →
        r = .ok st (some (Json.obj kvs)) →
        (page_token env r pid).1 = .ok (Json.str t)) ∧
      (∀ st kvs, st < 400 → lookupJ kvs "access_token" = none →
        r = .ok st (some (Json.obj kvs)) →
        (page_token env r pid).1 = .error (.valueError
          ("Could not get page token for " ++ pid ++ ": " ++
           "No access_token returned for page " ++ pid))) ∧
      (∀ msg, r = .exc msg →
        (page_token env r pid).1 = .error (.valueError
          ("Could not get page token for " ++ pid ++ ": " ++ msg))) ∧
      (∀ st bd, 400 ≤ st → r = .ok st bd →
        (page_token env r pid).1 = .error (.valueError
          ("Could not get page token for " ++ pid ++ ": " ++ httpStatusErrorText st))) ∧
      (∀ v, (page_token env r pid).1 = .ok v → pyTruthy v = true) := by
  intro env r pid hmiss hu
  have husr : user_token env = .ok env.userToken := by simp [user_token, hu]
  have hpt : page_token env r pid = exchange_page_token env r pid := by
    unfold page_token; rw [hmiss]
  refine ⟨?_, ?_, ?_, ?_, ?_, ?_⟩
  · rw [hpt]
    unfold exchange_page_token
    rw [husr]
    cases r with
    | exc m => rfl
    | ok st bd =>
      by_cases hst : 400 ≤ st
      · simp [hst]
      · cases bd with
        | none => simp [hst]
        | some data =>
          cases data with
          | obj kvs =>
            cases hv : lookupJ kvs "access_token" with
            | none => simp [hst, hv]
            | some w =>
              by_cases hw : pyTruthy w = true
              · simp [hst, hv, hw]
              · simp [hst, hv, hw]
          | null => simp [hst]
          | bool b => simp [hst]
          | num n2 => simp [hst]
          | str s2 => simp [hst]
          | arr xs => simp [hst]
  · intro st kvs t hst hv ht hr
    subst hr
    rw [hpt]
    unfold exchange_page_token
    rw [husr]
    have htr : pyTruthy (Json.str t) = true := by simp [pyTruthy, bne_iff_ne, ht]
    simp [if_neg (not_le.mpr hst), hv, htr]
  · intro st kvs hst hv hr
    subst hr
    rw [hpt]
    unfold exchange_page_token
    rw [husr]
    simp [if_neg (not_le.mpr hst), hv]
  · intro msg hr
    subst hr
    rw [hpt]
    unfold exchange_page_token
    rw [husr]
  · intro st bd hst hr
    subst hr
    rw [hpt]
    unfold exchange_page_token
    rw [husr]
    cases bd <;> simp [hst]
  · intro v hv
    rw [hpt] at hv
    exact exchange_ok_truthy env r pid v hv

/-- C6 witness: a map miss at a concrete environment issues the one
authorized exchange read and returns the exchanged token. -/
theorem exchange_on_map_miss_witness :
    (page_token ⟨"U", [("other", "T")], "", ""⟩
        (.ok 200 (some (Json.obj [("access_token", Json.str "PT")]))) "42").1 =
      .ok (Json.str "PT") ∧
    (page_token ⟨"U", [("other", "T")], "", ""⟩
        (.ok 200 (some (Json.obj [("access_token", Json.str "PT")]))) "42").2 =
      [Request.get "42" [("fields", Json.str "access_token"),
                         ("access_token", Json.str "U")]] := by
  have h := exchange_on_map_miss ⟨"U", [("other", "T")], "", ""⟩
    (.ok 200 (some (Json.obj [("access_token", Json.str "PT")]))) "42" rfl (by decide)
  exact ⟨h.2.1 200 [("access_token", Json.str "PT")] "PT" (by decide) rfl (by decide) rfl, h.1⟩

/-- C10 witness: `token_type="PAGE"` (not an exact match for `"page"`)
silently uses the user credential. -/
theorem token_type_fallback_user_witness :
    (meta_graph_api_call ⟨"U", [], "", ""⟩ (.exc "a") (.exc "b") (fun _ => none)
        "me" "GET" "PAGE" none none none none).2 =
      [Request.get "me" (setParam [] "access_token" (Json.str "U"))] :=
  (token_type_fallback_user.2 ⟨"U", [], "", ""⟩ (.exc "a") (.exc "b") (fun _ => none)
    "me" "PAGE" (by decide) (by decide) (by decide)).1

end MetaPages
